import Mathlib

/-!
# Verification of `inputplus.py`

A shallow embedding of the console input-validation helper `inputplus.py`:
its constraint objects (`Constraint.Min`, `Constraint.Max`, `DivisibleBy`,
`NotDivisibleBy`, `MinLen`, `MaxLen`, `Int`), its restricted arithmetic
expression evaluator (`__eval_` over Python `ast` nodes with the
`__operators` whitelist), its conversion function
(`__try_to_convert_to_float`), and its three prompt loops (`input_float`,
`input_int`, `input_string`).

Python numbers are modelled exactly: `bool` / `int` / `float` values carry
a `Bool`, `ℤ`, or `ℚ` payload (floats are modelled as exact rationals; the
inputs appearing below, such as `3.5`, are exactly representable in binary
floating point, so no rounding is lost on them).  Python exceptions are
modelled with `Except`: an exception the source catches is turned into a
result by the handler, an exception no handler catches propagates as an
`Except.error`.

Because `Rat.add`/`Rat.mul` are `@[irreducible]` in this toolchain, the
embedding computes rational arithmetic through `Rat.divInt` (which the
kernel can evaluate); bridge lemmas prove these operations equal the
standard `ℚ` operations, so universal theorems are stated over ordinary
arithmetic.
-/

set_option linter.unusedVariables false

namespace InputPlus

/-! ## Kernel-computable rational arithmetic -/

/-- The integer `n` as a rational, built with `Rat.divInt` so the kernel can
evaluate it. -/
def ratOfInt (n : ℤ) : ℚ := Rat.divInt n 1

/-- Kernel-computable addition on `ℚ`. -/
def ratAdd (a b : ℚ) : ℚ :=
  Rat.divInt (a.num * (b.den : ℤ) + b.num * (a.den : ℤ)) ((a.den : ℤ) * (b.den : ℤ))

/-- Kernel-computable subtraction on `ℚ`. -/
def ratSub (a b : ℚ) : ℚ :=
  Rat.divInt (a.num * (b.den : ℤ) - b.num * (a.den : ℤ)) ((a.den : ℤ) * (b.den : ℤ))

/-- Kernel-computable multiplication on `ℚ`. -/
def ratMul (a b : ℚ) : ℚ :=
  Rat.divInt (a.num * b.num) ((a.den : ℤ) * (b.den : ℤ))

/-- Kernel-computable negation on `ℚ`. -/
def ratNeg (a : ℚ) : ℚ := Rat.divInt (-a.num) (a.den : ℤ)

/-- Kernel-computable division on `ℚ` (returns `0` for a zero divisor, like
Mathlib's `/`; all call sites in the embedding guard the divisor first, as
Python raises `ZeroDivisionError` there). -/
def ratDiv (a b : ℚ) : ℚ :=
  Rat.divInt (a.num * (b.den : ℤ)) ((a.den : ℤ) * b.num)

theorem den_int_ne_zero (a : ℚ) : (a.den : ℤ) ≠ 0 :=
  Int.natCast_ne_zero.mpr a.den_nz

theorem ratOfInt_eq (n : ℤ) : ratOfInt n = (n : ℚ) := by
  rw [ratOfInt, Rat.divInt_one]

theorem ratAdd_eq (a b : ℚ) : ratAdd a b = a + b := by
  rw [ratAdd]
  conv_rhs => rw [← Rat.num_divInt_den a, ← Rat.num_divInt_den b]
  rw [Rat.divInt_add_divInt _ _ (den_int_ne_zero a) (den_int_ne_zero b)]

theorem ratSub_eq (a b : ℚ) : ratSub a b = a - b := by
  rw [ratSub]
  conv_rhs => rw [← Rat.num_divInt_den a, ← Rat.num_divInt_den b]
  rw [Rat.divInt_sub_divInt _ _ (den_int_ne_zero a) (den_int_ne_zero b)]

theorem ratMul_eq (a b : ℚ) : ratMul a b = a * b := by
  rw [ratMul]
  conv_rhs => rw [← Rat.num_divInt_den a, ← Rat.num_divInt_den b]
  rw [Rat.divInt_mul_divInt _ _ (den_int_ne_zero a) (den_int_ne_zero b)]

theorem ratNeg_eq (a : ℚ) : ratNeg a = -a := by
  rw [ratNeg, ← Rat.neg_divInt, Rat.num_divInt_den]

theorem ratDiv_eq (a b : ℚ) : ratDiv a b = a / b := by
  by_cases hb : b = 0
  · subst hb
    simp [ratDiv]
  · rw [ratDiv, div_eq_mul_inv, Rat.inv_def']
    conv_rhs => rw [← Rat.num_divInt_den a]
    rw [Rat.divInt_mul_divInt _ _ (den_int_ne_zero a) (Rat.num_ne_zero.mpr hb)]

theorem ratFloor_eq (q : ℚ) : q.floor = ⌊q⌋ :=
  (Rat.floor_def' q).trans Rat.floor_def.symm

/-- Python's binary `%` on numbers (for a nonzero right operand):
`a % b = a - b * floor(a / b)`, the result taking the sign of `b`.
All call sites guard `b = 0`, where Python raises `ZeroDivisionError`. -/
def pymod (a b : ℚ) : ℚ :=
  ratSub a (ratMul b (ratOfInt (Rat.floor (ratDiv a b))))

theorem pymod_eq (a b : ℚ) : pymod a b = a - b * ⌊a / b⌋ := by
  rw [pymod, ratSub_eq, ratMul_eq, ratOfInt_eq, ratDiv_eq, ratFloor_eq]

theorem pymod_one_eq_zero_iff (q : ℚ) : pymod q 1 = 0 ↔ q.den = 1 := by
  rw [pymod_eq, div_one, one_mul, sub_eq_zero]
  constructor
  · intro h
    rw [h]
    exact Rat.den_intCast _
  · intro h
    have hq : (q.num : ℚ) = q := (Rat.den_eq_one_iff q).mp h
    rw [← hq, Int.floor_intCast]

/-- Python's `int()` truncation toward zero of a float, on the rational
model: truncating division of numerator by denominator. -/
def ratTrunc (q : ℚ) : ℤ := Int.tdiv q.num (q.den : ℤ)

theorem ratTrunc_of_den_eq_one {q : ℚ} (h : q.den = 1) :
    (ratTrunc q : ℚ) = q := by
  rw [ratTrunc, h]
  simp only [Nat.cast_one, Int.tdiv_one]
  exact (Rat.den_eq_one_iff q).mp h

/-! ## Python values and exceptions -/

/-- A Python number as handled by this program: `bool`, `int`, or `float`
(floats modelled as exact rationals).  `bool` is kept distinct because
`isinstance(value, int)` is true for it (it is a subclass of `int`), yet
`input_float` can literally return `True`/`False`. -/
inductive PyNum where
  | bool (b : Bool)
  | int (n : ℤ)
  | float (q : ℚ)
deriving DecidableEq, Repr

/-- The numeric value of a `PyNum` (Python's numeric tower compares and
mixes `bool`/`int`/`float` by value). -/
def PyNum.toRat : PyNum → ℚ
  | .bool b => ratOfInt (if b then 1 else 0)
  | .int n => ratOfInt n
  | .float q => q

/-- `some n` when the value is from an `int`-like type (`bool` or `int`);
`none` for a `float`.  Python's `+`, `-`, `*`, `**` produce an `int` when
all operands are `int`-like, and a `float` otherwise. -/
def PyNum.toIntQ : PyNum → Option ℤ
  | .bool b => some (if b then 1 else 0)
  | .int n => some n
  | .float _ => none

/-- The Python exceptions this program can raise.  `__try_to_convert_to_float`
handles `ValueError` (inside `float()`, modelled by `pyFloatParse` returning
`none`), `TypeError` and `SyntaxError`; `KeyError`, `ZeroDivisionError` and
`EOFError` have no handler anywhere and propagate to the caller.
`unmodeledPow` flags the one spot the rational model cannot represent:
`**` with a non-integral exponent, whose value is irrational; no theorem
below depends on it. -/
inductive PyErr where
  | typeError
  | syntaxError
  | keyError
  | zeroDivision
  | eofError
  | unmodeledPow
deriving DecidableEq, Repr

/-! ## The `operator`-module functions the `__operators` dict stores -/

/-- `operator.add` on numbers. -/
def pyAdd (a b : PyNum) : Except PyErr PyNum :=
  match a.toIntQ, b.toIntQ with
  | some m, some n => .ok (.int (m + n))
  | _, _ => .ok (.float (ratAdd a.toRat b.toRat))

/-- `operator.sub` on numbers. -/
def pySub (a b : PyNum) : Except PyErr PyNum :=
  match a.toIntQ, b.toIntQ with
  | some m, some n => .ok (.int (m - n))
  | _, _ => .ok (.float (ratSub a.toRat b.toRat))

/-- `operator.mul` on numbers. -/
def pyMul (a b : PyNum) : Except PyErr PyNum :=
  match a.toIntQ, b.toIntQ with
  | some m, some n => .ok (.int (m * n))
  | _, _ => .ok (.float (ratMul a.toRat b.toRat))

/-- `operator.truediv` on numbers: always a `float`; raises
`ZeroDivisionError` on a zero divisor. -/
def pyDiv (a b : PyNum) : Except PyErr PyNum :=
  if b.toRat = 0 then .error .zeroDivision
  else .ok (.float (ratDiv a.toRat b.toRat))

/-- `n`-th power by structural recursion (kernel-computable). -/
def ratNpow (q : ℚ) : ℕ → ℚ
  | 0 => ratOfInt 1
  | n + 1 => ratMul q (ratNpow q n)

/-- Integer power by structural recursion (kernel-computable). -/
def intNpow (a : ℤ) : ℕ → ℤ
  | 0 => 1
  | n + 1 => a * intNpow a n

/-- `q ^ z` for an integer exponent, on the rational model. -/
def ratZpow (q : ℚ) (z : ℤ) : ℚ :=
  if 0 ≤ z then ratNpow q z.toNat
  else ratDiv (ratOfInt 1) (ratNpow q z.natAbs)

/-- `operator.pow` on numbers.  `int ** nonnegative int` is an `int`,
`int ** negative int` is a `float`, a `float` operand makes a `float`;
`0 ** negative` raises `ZeroDivisionError`.  A non-integral exponent would
produce an irrational (or complex) value, outside the rational model. -/
def pyPowOp (a b : PyNum) : Except PyErr PyNum :=
  match b.toIntQ with
  | some n =>
    if 0 ≤ n then
      match a.toIntQ with
      | some m => .ok (.int (intNpow m n.toNat))
      | none => .ok (.float (ratNpow a.toRat n.toNat))
    else if a.toRat = 0 then .error .zeroDivision
    else .ok (.float (ratZpow a.toRat n))
  | none =>
    let e := PyNum.toRat b
    if e.den = 1 then
      if 0 ≤ e.num then .ok (.float (ratNpow a.toRat e.num.toNat))
      else if a.toRat = 0 then .error .zeroDivision
      else .ok (.float (ratZpow a.toRat e.num))
    else .error .unmodeledPow

/-- `operator.xor` on numbers: bitwise xor, defined only for `int`-like
operands — a `float` operand raises `TypeError` (which the conversion
routine's handler then folds into the invalid-input case). -/
def pyXorOp (a b : PyNum) : Except PyErr PyNum :=
  match a, b with
  | .bool x, .bool y => .ok (.bool (xor x y))
  | _, _ =>
    match a.toIntQ, b.toIntQ with
    | some m, some n => .ok (.int (Int.xor m n))
    | _, _ => .error .typeError

/-- `operator.neg` on numbers (`-True` is the `int` `-1`). -/
def pyNeg (a : PyNum) : Except PyErr PyNum :=
  match a.toIntQ with
  | some m => .ok (.int (-m))
  | none => .ok (.float (ratNeg a.toRat))

/-! ## The expression AST (the `ast` nodes this program can meet) -/

/-- A literal constant as Python's `ast.Constant` carries it.  `__eval_`
accepts it only when `isinstance(value, (int, float))` — which admits
`bool`, a subclass of `int`. -/
inductive PyConst where
  | int (n : ℤ)
  | bool (b : Bool)
  | float (q : ℚ)
  | str (s : String)
  | noneV
deriving DecidableEq, Repr

/-- Binary operator node kinds (`ast.Add`, `ast.Sub`, …).  `mod` and
`floorDiv` exist as parse results but are absent from `__operators`. -/
inductive BinOpKind where
  | add
  | sub
  | mult
  | div
  | pow
  | bitXor
  | mod
  | floorDiv
deriving DecidableEq, Repr

/-- Unary operator node kinds.  Only `usub` is in `__operators`. -/
inductive UnaryOpKind where
  | usub
  | uadd
deriving DecidableEq, Repr

/-- Expression trees as `ast.parse(·, mode="eval").body` yields them for
this program: constants, binary and unary operations, and the
non-arithmetic shapes (`Name`, `Call`, `Compare`) that `__eval_`'s
wildcard case rejects with `TypeError`. -/
inductive Ast where
  | constant (c : PyConst)
  | binOp (l : Ast) (o : BinOpKind) (r : Ast)
  | unaryOp (o : UnaryOpKind) (e : Ast)
  | name (id : String)
  | call (f : Ast) (args : List Ast)
  | compare (l : Ast) (r : Ast)

/-- The `__operators` dict, restricted to binary node kinds: maps a node
type to the `operator`-module function, `none` when the type is not a key
(so that subscripting it raises `KeyError`). -/
def pyOperators : BinOpKind → Option (PyNum → PyNum → Except PyErr PyNum)
  | .add => some pyAdd
  | .sub => some pySub
  | .mult => some pyMul
  | .div => some pyDiv
  | .pow => some pyPowOp
  | .bitXor => some pyXorOp
  | .mod => none
  | .floorDiv => none

/-- The `__operators` dict, restricted to unary node kinds (`ast.USub` is
its only unary key). -/
def pyOperatorsUnary : UnaryOpKind → Option (PyNum → Except PyErr PyNum)
  | .usub => some pyNeg
  | .uadd => none

/-- `__eval_(node)`: a numeric constant evaluates to itself (the
`isinstance` guard admits `bool`/`int`/`float`); a `BinOp`/`UnaryOp` first
subscripts `__operators` with the operator's type (raising `KeyError` for
a type that is not a key, before any operand is evaluated), then evaluates
operands left to right and applies the function; every other node raises
`TypeError`. -/
def evalAst : Ast → Except PyErr PyNum
  | .constant (.int n) => .ok (.int n)
  | .constant (.bool b) => .ok (.bool b)
  | .constant (.float q) => .ok (.float q)
  | .binOp l o r =>
    match pyOperators o with
    | none => .error .keyError
    | some f =>
      match evalAst l with
      | .error e => .error e
      | .ok lv =>
        match evalAst r with
        | .error e => .error e
        | .ok rv => f lv rv
  | .unaryOp o e =>
    match pyOperatorsUnary o with
    | none => .error .keyError
    | some f =>
      match evalAst e with
      | .error err => .error err
      | .ok v => f v
  | _ => .error .typeError

/-! ## Text handling: `str.strip`, `float()`, and `ast.parse` -/

/-- Python's `str.strip()`: remove leading and trailing whitespace. -/
def pyStrip (s : String) : String :=
  ⟨((s.toList.dropWhile Char.isWhitespace).reverse.dropWhile Char.isWhitespace).reverse⟩

/-- The natural number spelt by a list of decimal digit characters. -/
def natOfDigits (ds : List Char) : ℕ :=
  ds.foldl (fun a c => a * 10 + (c.toNat - '0'.toNat)) 0

/-- `10 ^ n` by structural recursion (kernel-computable). -/
def pow10 : ℕ → ℕ
  | 0 => 1
  | n + 1 => 10 * pow10 n

/-- The exact rational value of the decimal literal with integer digits
`intDs`, fraction digits `fracDs` and decimal exponent `exp`. -/
def decimalValue (intDs fracDs : List Char) (exp : ℤ) : ℚ :=
  let mant : ℤ := (natOfDigits (intDs ++ fracDs) : ℤ)
  let shift : ℤ := exp - (fracDs.length : ℤ)
  if 0 ≤ shift then Rat.divInt (mant * ((pow10 shift.toNat : ℕ) : ℤ)) 1
  else Rat.divInt mant ((pow10 (-shift).toNat : ℕ) : ℤ)

/-- Scan one unsigned numeric literal from the front of a character list:
digits, an optional fraction part, an optional exponent part.  Yields the
value — `Sum.inl` for an `int` literal, `Sum.inr` for a `float` literal —
and the unconsumed characters; `none` when no well-formed literal starts
here.  (CPython extras not used by anything below — underscores in
literals, `inf`/`nan` — are not modelled.) -/
def scanNumber (cs : List Char) : Option ((ℕ ⊕ ℚ) × List Char) :=
  let p1 := cs.span Char.isDigit
  let intDs := p1.1
  let afterInt := p1.2
  let p2 : List Char × List Char × Bool :=
    match afterInt with
    | '.' :: t =>
      let q := t.span Char.isDigit
      (q.1, q.2, true)
    | _ => ([], afterInt, false)
  let fracDs := p2.1
  let afterFrac := p2.2.1
  let hasDot := p2.2.2
  if intDs.isEmpty ∧ fracDs.isEmpty then none
  else
    match afterFrac with
    | 'e' :: t => scanExponentAux intDs fracDs t
    | 'E' :: t => scanExponentAux intDs fracDs t
    | rest =>
      if hasDot then some (.inr (decimalValue intDs fracDs 0), rest)
      else some (.inl (natOfDigits intDs), rest)
where
  /-- Scan the exponent digits after the `e`; malformed exponents make the
  whole literal scan fail. -/
  scanExponentAux (intDs fracDs t : List Char) :
      Option ((ℕ ⊕ ℚ) × List Char) :=
    let p3 : ℤ × List Char :=
      match t with
      | '+' :: u => (1, u)
      | '-' :: u => (-1, u)
      | _ => (1, t)
    let q := p3.2.span Char.isDigit
    if q.1.isEmpty then none
    else some (.inr (decimalValue intDs fracDs (p3.1 * (natOfDigits q.1 : ℤ))), q.2)

/-- Python's `float(text)` on this program's inputs: strip whitespace,
optional sign, then one complete decimal literal.  `none` models the
`ValueError` that `__try_to_convert_to_float` catches. -/
def pyFloatParse (text : String) : Option ℚ :=
  let cs := (pyStrip text).toList
  let p : Bool × List Char :=
    match cs with
    | '+' :: t => (false, t)
    | '-' :: t => (true, t)
    | _ => (false, cs)
  match scanNumber p.2 with
  | some (v, []) =>
    let q : ℚ := match v with
      | .inl n => ratOfInt (n : ℤ)
      | .inr x => x
    some (if p.1 then ratNeg q else q)
  | _ => none

/-- Tokens of the expression grammar reachable through `__eval_`. -/
inductive Tok where
  | intTok (n : ℕ)
  | floatTok (q : ℚ)
  | ident (s : String)
  | plus
  | minus
  | star
  | slash
  | dblstar
  | dblslash
  | percent
  | caret
  | lparen
  | rparen
deriving DecidableEq, Repr

/-- Tokenizer (fuelled; every step consumes at least one character, so
`length + 1` fuel always suffices).  An unrecognised character makes the
whole tokenization fail, modelling `SyntaxError`. -/
def lexChars : ℕ → List Char → Option (List Tok)
  | 0, _ => none
  | _ + 1, [] => some []
  | fuel + 1, c :: cs =>
    if c.isWhitespace then lexChars fuel cs
    else if c.isDigit || c == '.' then
      match scanNumber (c :: cs) with
      | some (.inl n, rest) => (lexChars fuel rest).map (Tok.intTok n :: ·)
      | some (.inr q, rest) => (lexChars fuel rest).map (Tok.floatTok q :: ·)
      | none => none
    else if c.isAlpha || c == '_' then
      let p := (c :: cs).span (fun d => d.isAlphanum || d == '_')
      (lexChars fuel p.2).map (Tok.ident ⟨p.1⟩ :: ·)
    else
      match c, cs with
      | '*', '*' :: rest => (lexChars fuel rest).map (Tok.dblstar :: ·)
      | '/', '/' :: rest => (lexChars fuel rest).map (Tok.dblslash :: ·)
      | '+', _ => (lexChars fuel cs).map (Tok.plus :: ·)
      | '-', _ => (lexChars fuel cs).map (Tok.minus :: ·)
      | '*', _ => (lexChars fuel cs).map (Tok.star :: ·)
      | '/', _ => (lexChars fuel cs).map (Tok.slash :: ·)
      | '%', _ => (lexChars fuel cs).map (Tok.percent :: ·)
      | '^', _ => (lexChars fuel cs).map (Tok.caret :: ·)
      | '(', _ => (lexChars fuel cs).map (Tok.lparen :: ·)
      | ')', _ => (lexChars fuel cs).map (Tok.rparen :: ·)
      | _, _ => none

/- Recursive-descent parser for the expression grammar `ast.parse` gives
this program, with Python's precedence: `^` loosest, then `+ -`, then
`* / % //`, then unary `- +`, then right-associative `**` binding tighter
than a unary minus on its left.  Fuelled: all functions are total, and the
fuel passed by `pyParse` is ample for every token list. -/
mutual

def parseXor : ℕ → List Tok → Option (Ast × List Tok)
  | 0, _ => none
  | fuel + 1, ts =>
    match parseAdd fuel ts with
    | none => none
    | some (l, rest) => xorLoop fuel l rest

def xorLoop : ℕ → Ast → List Tok → Option (Ast × List Tok)
  | 0, _, _ => none
  | fuel + 1, acc, Tok.caret :: ts =>
    match parseAdd fuel ts with
    | none => none
    | some (r, rest) => xorLoop fuel (.binOp acc .bitXor r) rest
  | _ + 1, acc, ts => some (acc, ts)

def parseAdd : ℕ → List Tok → Option (Ast × List Tok)
  | 0, _ => none
  | fuel + 1, ts =>
    match parseMul fuel ts with
    | none => none
    | some (l, rest) => addLoop fuel l rest

def addLoop : ℕ → Ast → List Tok → Option (Ast × List Tok)
  | 0, _, _ => none
  | fuel + 1, acc, Tok.plus :: ts =>
    match parseMul fuel ts with
    | none => none
    | some (r, rest) => addLoop fuel (.binOp acc .add r) rest
  | fuel + 1, acc, Tok.minus :: ts =>
    match parseMul fuel ts with
    | none => none
    | some (r, rest) => addLoop fuel (.binOp acc .sub r) rest
  | _ + 1, acc, ts => some (acc, ts)

def parseMul : ℕ → List Tok → Option (Ast × List Tok)
  | 0, _ => none
  | fuel + 1, ts =>
    match parseUnary fuel ts with
    | none => none
    | some (l, rest) => mulLoop fuel l rest

def mulLoop : ℕ → Ast → List Tok → Option (Ast × List Tok)
  | 0, _, _ => none
  | fuel + 1, acc, Tok.star :: ts =>
    match parseUnary fuel ts with
    | none => none
    | some (r, rest) => mulLoop fuel (.binOp acc .mult r) rest
  | fuel + 1, acc, Tok.slash :: ts =>
    match parseUnary fuel ts with
    | none => none
    | some (r, rest) => mulLoop fuel (.binOp acc .div r) rest
  | fuel + 1, acc, Tok.percent :: ts =>
    match parseUnary fuel ts with
    | none => none
    | some (r, rest) => mulLoop fuel (.binOp acc .mod r) rest
  | fuel + 1, acc, Tok.dblslash :: ts =>
    match parseUnary fuel ts with
    | none => none
    | some (r, rest) => mulLoop fuel (.binOp acc .floorDiv r) rest
  | _ + 1, acc, ts => some (acc, ts)

def parseUnary : ℕ → List Tok → Option (Ast × List Tok)
  | 0, _ => none
  | fuel + 1, Tok.minus :: ts =>
    match parseUnary fuel ts with
    | none => none
    | some (e, rest) => some (.unaryOp .usub e, rest)
  | fuel + 1, Tok.plus :: ts =>
    match parseUnary fuel ts with
    | none => none
    | some (e, rest) => some (.unaryOp .uadd e, rest)
  | fuel + 1, ts => parsePowE fuel ts

def parsePowE : ℕ → List Tok → Option (Ast × List Tok)
  | 0, _ => none
  | fuel + 1, ts =>
    match parseAtom fuel ts with
    | none => none
    | some (a, Tok.dblstar :: rest) =>
      match parseUnary fuel rest with
      | none => none
      | some (e, rest2) => some (.binOp a .pow e, rest2)
    | some (a, rest) => some (a, rest)

def parseAtom : ℕ → List Tok → Option (Ast × List Tok)
  | 0, _ => none
  | _ + 1, Tok.intTok n :: ts => some (.constant (.int (n : ℤ)), ts)
  | _ + 1, Tok.floatTok q :: ts => some (.constant (.float q), ts)
  | _ + 1, Tok.ident s :: ts =>
    if s = "True" then some (.constant (.bool true), ts)
    else if s = "False" then some (.constant (.bool false), ts)
    else if s = "None" then some (.constant .noneV, ts)
    else some (.name s, ts)
  | fuel + 1, Tok.lparen :: ts =>
    match parseXor fuel ts with
    | some (e, Tok.rparen :: rest) => some (e, rest)
    | _ => none
  | _ + 1, _ => none

end

/-- `ast.parse(text, mode="eval").body` for this program's expression
grammar: tokenization or parse failure — including leftover tokens —
models `SyntaxError`. -/
def pyParse (text : String) : Except PyErr Ast :=
  match lexChars (text.toList.length + 1) text.toList with
  | none => .error .syntaxError
  | some toks =>
    match parseXor (8 * (toks.length + 1)) toks with
    | some (t, []) => .ok t
    | _ => .error .syntaxError

/-- `__eval_expr(expr)`: parse, then evaluate the body. -/
def evalExpr (text : String) : Except PyErr PyNum :=
  match pyParse text with
  | .error e => .error e
  | .ok t => evalAst t

/-- `__try_to_convert_to_float(text)`: try `float(text)` first; on its
`ValueError`, try `__eval_expr(text)`, handling only `TypeError` and
`SyntaxError` (both become `None`, the no-value sentinel).  Any other
exception — `KeyError`, `ZeroDivisionError` — has no handler and
propagates. -/
def tryToConvertToFloat (text : String) : Except PyErr (Option PyNum) :=
  match pyFloatParse text with
  | some q => .ok (some (.float q))
  | none =>
    match evalExpr text with
    | .ok v => .ok (some v)
    | .error .typeError => .ok none
    | .error .syntaxError => .ok none
    | .error e => .error e

/-! ## Constraints -/

/-- A value a constraint can be asked about: the numeric result of
conversion, or the trimmed string read by `input_string`. -/
inductive PyVal where
  | num (v : PyNum)
  | str (s : String)
deriving DecidableEq, Repr

/-- How a constraint parameter is rendered into the f-string error
message.  Python's `str()` of an `int` parameter is its decimal spelling,
modelled exactly; parameters that are non-integral floats would render
through CPython's float `repr`, which is outside the rational model (no
claim formats one — all parameters in the spec's examples are integers). -/
def pyNumRepr (q : ℚ) : String :=
  if q.den = 1 then toString q.num
  else toString q.num ++ "/" ++ toString q.den

/-- One constraint class of the `Constraint` container: a constructor
stores the parameter and the pre-formatted `error_message`; `satisfies`
tests a value.  Modelled as the parameter-indexed pair of both methods. -/
structure ConstraintDef where
  satisfiesAt : ℚ → PyVal → Except PyErr Bool
  errorMessageAt : ℚ → String

/-- Lines 29–36: the first `class Min` — inclusive, `value >= min_value`,
message `"Input must be at least {min_value}"`.  (A numeric comparison
against a string raises `TypeError` in Python 3.) -/
def minDefInclusive : ConstraintDef where
  satisfiesAt m v :=
    match v with
    | .num x => .ok (decide (x.toRat ≥ m))
    | .str _ => .error .typeError
  errorMessageAt m := "Input must be at least " ++ pyNumRepr m

/-- Lines 38–45: the first `class Max` — inclusive, `value <= max_value`,
message `"Input must be at most {max_value}"`. -/
def maxDefInclusive : ConstraintDef where
  satisfiesAt m v :=
    match v with
    | .num x => .ok (decide (x.toRat ≤ m))
    | .str _ => .error .typeError
  errorMessageAt m := "Input must be at most " ++ pyNumRepr m

/-- Lines 47–54: the second `class Min` — exclusive, `value > min_value`,
message `"Input must be greater than {min_value}"`. -/
def minDefExclusive : ConstraintDef where
  satisfiesAt m v :=
    match v with
    | .num x => .ok (decide (x.toRat > m))
    | .str _ => .error .typeError
  errorMessageAt m := "Input must be greater than " ++ pyNumRepr m

/-- Lines 56–63: the second `class Max` — exclusive, `value < max_value`,
message `"Input must be less than {max_value}"`. -/
def maxDefExclusive : ConstraintDef where
  satisfiesAt m v :=
    match v with
    | .num x => .ok (decide (x.toRat < m))
    | .str _ => .error .typeError
  errorMessageAt m := "Input must be less than " ++ pyNumRepr m

/-- Lines 65–72: `DivisibleBy` — `value % quotient == 0`.  Python's `%`
raises `ZeroDivisionError` when the stored quotient is zero, and
`TypeError` when the tested value is a string (string `%` is formatting
and rejects a plain number on the right). -/
def divisibleByDef : ConstraintDef where
  satisfiesAt q v :=
    match v with
    | .num x =>
      if q = 0 then .error .zeroDivision
      else .ok (decide (pymod x.toRat q = 0))
    | .str _ => .error .typeError
  errorMessageAt q := "Input must be divisible by " ++ pyNumRepr q

/-- Lines 74–81: `NotDivisibleBy` — `value % quotient != 0`. -/
def notDivisibleByDef : ConstraintDef where
  satisfiesAt q v :=
    match v with
    | .num x =>
      if q = 0 then .error .zeroDivision
      else .ok (decide (¬ pymod x.toRat q = 0))
    | .str _ => .error .typeError
  errorMessageAt q := "Input must not be divisible by " ++ pyNumRepr q

/-- Lines 83–90: `MinLen` — `len(value) >= min_len`.  `len` of a number
raises `TypeError`. -/
def minLenDef : ConstraintDef where
  satisfiesAt n v :=
    match v with
    | .num _ => .error .typeError
    | .str s => .ok (decide ((s.length : ℚ) ≥ n))
  errorMessageAt n := "Input must have at least " ++ pyNumRepr n ++ " characters"

/-- Lines 92–99: `MaxLen` — `len(value) <= max_len`. -/
def maxLenDef : ConstraintDef where
  satisfiesAt n v :=
    match v with
    | .num _ => .error .typeError
    | .str s => .ok (decide ((s.length : ℚ) ≤ n))
  errorMessageAt n := "Input must have at most " ++ pyNumRepr n ++ " characters"

/-- Lines 101–107: `Int` — `value % 1 == 0` (parameterless; the stored
parameter is ignored), message `"Input must be an integer"`. -/
def intDef : ConstraintDef where
  satisfiesAt _ v :=
    match v with
    | .num x => .ok (decide (pymod x.toRat 1 = 0))
    | .str _ => .error .typeError
  errorMessageAt _ := "Input must be an integer"

/-- The `class Constraint` body, executed top to bottom: each `class X`
statement binds `X` in the class dict, a later binding of the same name
silently overwriting the earlier one.  The order mirrors source lines
29–107, with `Min` and `Max` each bound twice. -/
def constraintClassBody : List (String × ConstraintDef) :=
  [("Min", minDefInclusive), ("Max", maxDefInclusive),
   ("Min", minDefExclusive), ("Max", maxDefExclusive),
   ("DivisibleBy", divisibleByDef), ("NotDivisibleBy", notDivisibleByDef),
   ("MinLen", minLenDef), ("MaxLen", maxLenDef), ("Int", intDef)]

/-- Attribute lookup on `Constraint`: the last binding of the name in the
class body is the one in force. -/
def classAttr (n : String) : Option ConstraintDef :=
  (constraintClassBody.reverse.find? (fun p => p.1 == n)).map (fun p => p.2)

/-- A constructed constraint object, as the call sites build them:
`Constraint.Min(0)` etc.  Each constructor names the class attribute in
force (for `Min`/`Max`, the second, shadowing definition — theorem
`classAttr_min_max` below) together with its stored parameter. -/
inductive CInstance where
  | min (m : ℚ)
  | max (m : ℚ)
  | divisibleBy (q : ℚ)
  | notDivisibleBy (q : ℚ)
  | minLen (n : ℚ)
  | maxLen (n : ℚ)
  | int
deriving DecidableEq, Repr

/-- `constraint.satisfies(value)` for a constructed object, dispatching to
the class attribute in force. -/
def CInstance.satisfies : CInstance → PyVal → Except PyErr Bool
  | .min m, v => minDefExclusive.satisfiesAt m v
  | .max m, v => maxDefExclusive.satisfiesAt m v
  | .divisibleBy q, v => divisibleByDef.satisfiesAt q v
  | .notDivisibleBy q, v => notDivisibleByDef.satisfiesAt q v
  | .minLen n, v => minLenDef.satisfiesAt n v
  | .maxLen n, v => maxLenDef.satisfiesAt n v
  | .int, v => intDef.satisfiesAt 0 v

/-- `constraint.error_message` for a constructed object. -/
def CInstance.errorMessage : CInstance → String
  | .min m => minDefExclusive.errorMessageAt m
  | .max m => maxDefExclusive.errorMessageAt m
  | .divisibleBy q => divisibleByDef.errorMessageAt q
  | .notDivisibleBy q => notDivisibleByDef.errorMessageAt q
  | .minLen n => minLenDef.errorMessageAt n
  | .maxLen n => maxLenDef.errorMessageAt n
  | .int => intDef.errorMessageAt 0

/-! ## The prompt loops -/

/-- `__get_first_constraint_error(value, constraints)`: walk the list in
order, return the first failing constraint's `error_message`; implicitly
return `None` when every constraint passes.  An exception inside
`satisfies` propagates. -/
def getFirstConstraintError (value : PyVal) :
    List CInstance → Except PyErr (Option String)
  | [] => .ok none
  | c :: cs =>
    match c.satisfies value with
    | .error e => .error e
    | .ok false => .ok (some c.errorMessage)
    | .ok true => getFirstConstraintError value cs

/-- `input_float(prompt, input_constraints)`, with the standard-input
stream made explicit as the list of lines the user will type.  Each
iteration reads a line, strips it, converts it; a failed conversion prints
`"Invalid expression"` and rereads, a failing constraint prints its
message and rereads, and an accepted value is returned.  The result
carries the accepted value, the unconsumed input lines, and the diagnostic
messages printed by `print` in order (the prompt text `input()` echoes is
display only and not collected).  Reading from an exhausted stream raises
`EOFError`, which nothing catches; uncaught exceptions from conversion or
constraint checking likewise propagate. -/
def inputFloat (prompt : String) (cs : List CInstance) :
    List String → Except PyErr (PyNum × List String × List String)
  | [] => .error .eofError
  | line :: rest =>
    match tryToConvertToFloat (pyStrip line) with
    | .error e => .error e
    | .ok none =>
      match inputFloat prompt cs rest with
      | .error e => .error e
      | .ok (v, r, out) => .ok (v, r, "Invalid expression" :: out)
    | .ok (some x) =>
      match getFirstConstraintError (.num x) cs with
      | .error e => .error e
      | .ok (some msg) =>
        match inputFloat prompt cs rest with
        | .error e => .error e
        | .ok (v, r, out) => .ok (v, r, msg :: out)
      | .ok none => .ok (x, rest, [])

/-- Python's `int()` on a number: `int(True) = 1`, `int(False) = 0`, an
`int` unchanged, a `float` truncated toward zero. -/
def pyIntCast : PyNum → ℤ
  | .bool b => if b then 1 else 0
  | .int n => n
  | .float q => ratTrunc q

/-- `input_int(prompt, input_constraints)`: delegate to `input_float` with
one `Constraint.Int()` appended after the caller's constraints, then apply
`int()` to the accepted value. -/
def inputInt (prompt : String) (cs : List CInstance) (stdin : List String) :
    Except PyErr (ℤ × List String × List String) :=
  match inputFloat prompt (cs ++ [CInstance.int]) stdin with
  | .error e => .error e
  | .ok (v, r, out) => .ok (pyIntCast v, r, out)

/-- `input_string(prompt, input_constraints)`: read a line, strip it,
check the constraints against the stripped string; print the first failing
constraint's message and reread, or return the stripped string. -/
def inputString (prompt : String) (cs : List CInstance) :
    List String → Except PyErr (String × List String × List String)
  | [] => .error .eofError
  | line :: rest =>
    let x := pyStrip line
    match getFirstConstraintError (.str x) cs with
    | .error e => .error e
    | .ok (some msg) =>
      match inputString prompt cs rest with
      | .error e => .error e
      | .ok (v, r, out) => .ok (v, r, msg :: out)
    | .ok none => .ok (x, rest, [])

/-! ## Derived predicates -/

/-- The node shapes `__eval_`'s wildcard case rejects outright: names,
calls, comparisons, and constants that fail the
`isinstance(value, (int, float))` guard (strings, `None`). -/
def Ast.nonArithTop : Ast → Bool
  | .constant (.str _) => true
  | .constant .noneV => true
  | .name _ => true
  | .call _ _ => true
  | .compare _ _ => true
  | _ => false

/-- Trees built only from numeric constants and whitelisted operators —
the shape the spec says is the only one numeric conversion accepts. -/
inductive ArithOnly : Ast → Prop
  | intConst (n : ℤ) : ArithOnly (.constant (.int n))
  | boolConst (b : Bool) : ArithOnly (.constant (.bool b))
  | floatConst (q : ℚ) : ArithOnly (.constant (.float q))
  | binOp {l r : Ast} {o : BinOpKind} :
      (pyOperators o).isSome = true → ArithOnly l → ArithOnly r →
      ArithOnly (.binOp l o r)
  | unaryOp {e : Ast} {o : UnaryOpKind} :
      (pyOperatorsUnary o).isSome = true → ArithOnly e →
      ArithOnly (.unaryOp o e)

/-- Whether a constraint is one of the numeric variants (`true`) or one of
the length variants (`false`). -/
def CInstance.expectsNum : CInstance → Bool
  | .minLen _ => false
  | .maxLen _ => false
  | _ => true

/-- The tested value has the type the constraint is written for: a number
for the numeric variants, a string for the length variants. -/
def expectedType (c : CInstance) (v : PyVal) : Prop :=
  match v with
  | .num _ => c.expectsNum = true
  | .str _ => c.expectsNum = false

/-- The stored parameter of the divisibility variants is nonzero (the
other variants place no condition on their parameter). -/
def divisorOk : CInstance → Prop
  | .divisibleBy q => q ≠ 0
  | .notDivisibleBy q => q ≠ 0
  | _ => True

/-! ## Lemmas about constraint checking -/

theorem getFirstConstraintError_none_iff (v : PyVal) (cs : List CInstance) :
    getFirstConstraintError v cs = .ok none ↔
      ∀ c ∈ cs, c.satisfies v = .ok true := by
  induction cs with
  | nil => simp [getFirstConstraintError]
  | cons c cs ih =>
    simp only [getFirstConstraintError, List.forall_mem_cons]
    cases h : c.satisfies v with
    | error e => simp [h]
    | ok b => cases b <;> simp [h, ih]

theorem getFirstConstraintError_first_fail (v : PyVal) (cs1 : List CInstance)
    (c : CInstance) (cs2 : List CInstance)
    (h1 : ∀ c' ∈ cs1, c'.satisfies v = .ok true)
    (h2 : c.satisfies v = .ok false) :
    getFirstConstraintError v (cs1 ++ c :: cs2) =
      .ok (some c.errorMessage) := by
  induction cs1 with
  | nil =>
    simp only [List.nil_append, getFirstConstraintError]
    rw [h2]
  | cons d ds ih =>
    have hd : d.satisfies v = .ok true := h1 d (List.mem_cons_self d ds)
    simp only [List.cons_append, getFirstConstraintError]
    rw [hd]
    exact ih (fun c' hc' => h1 c' (List.mem_cons_of_mem d hc'))

theorem getFirstConstraintError_none_perm (v : PyVal) {cs cs' : List CInstance}
    (h : cs.Perm cs') :
    (getFirstConstraintError v cs = .ok none ↔
      getFirstConstraintError v cs' = .ok none) := by
  rw [getFirstConstraintError_none_iff, getFirstConstraintError_none_iff]
  constructor <;> intro hall c hc
  · exact hall c (h.mem_iff.mpr hc)
  · exact hall c (h.mem_iff.mp hc)

/-! ## Lemmas about the loops -/

theorem inputFloat_accepted (p : String) (cs : List CInstance) :
    ∀ (stdin : List String) (x : PyNum) (r out : List String),
      inputFloat p cs stdin = .ok (x, r, out) →
      getFirstConstraintError (.num x) cs = .ok none := by
  intro stdin
  induction stdin with
  | nil => intro x r out h; simp [inputFloat] at h
  | cons line rest ih =>
    intro x r out h
    simp only [inputFloat] at h
    cases htc : tryToConvertToFloat (pyStrip line) with
    | error e => rw [htc] at h; exact absurd h (by simp)
    | ok o =>
      rw [htc] at h
      cases o with
      | none =>
        simp only [] at h
        cases hrec : inputFloat p cs rest with
        | error e => rw [hrec] at h; exact absurd h (by simp)
        | ok t =>
          obtain ⟨v, r', out'⟩ := t
          rw [hrec] at h
          simp only [Except.ok.injEq, Prod.mk.injEq] at h
          obtain ⟨hx, -, -⟩ := h
          exact hx ▸ ih v r' out' hrec
      | some y =>
        simp only [] at h
        cases hg : getFirstConstraintError (.num y) cs with
        | error e => rw [hg] at h; exact absurd h (by simp)
        | ok o2 =>
          rw [hg] at h
          cases o2 with
          | some msg =>
            cases hrec : inputFloat p cs rest with
            | error e => rw [hrec] at h; exact absurd h (by simp)
            | ok t =>
              obtain ⟨v, r', out'⟩ := t
              rw [hrec] at h
              simp only [Except.ok.injEq, Prod.mk.injEq] at h
              obtain ⟨hx, -, -⟩ := h
              exact hx ▸ ih v r' out' hrec
          | none =>
            simp only [Except.ok.injEq, Prod.mk.injEq] at h
            obtain ⟨hx, -, -⟩ := h
            exact hx ▸ hg

theorem inputString_accepted (p : String) (cs : List CInstance) :
    ∀ (stdin : List String) (s : String) (r out : List String),
      inputString p cs stdin = .ok (s, r, out) →
      (∃ line ∈ stdin, s = pyStrip line) ∧
        getFirstConstraintError (.str s) cs = .ok none := by
  intro stdin
  induction stdin with
  | nil => intro s r out h; simp [inputString] at h
  | cons line rest ih =>
    intro s r out h
    simp only [inputString] at h
    cases hg : getFirstConstraintError (.str (pyStrip line)) cs with
    | error e => rw [hg] at h; exact absurd h (by simp)
    | ok o =>
      rw [hg] at h
      cases o with
      | some msg =>
        simp only [] at h
        cases hrec : inputString p cs rest with
        | error e => rw [hrec] at h; exact absurd h (by simp)
        | ok t =>
          obtain ⟨v, r', out'⟩ := t
          rw [hrec] at h
          simp only [Except.ok.injEq, Prod.mk.injEq] at h
          obtain ⟨hx, -, -⟩ := h
          obtain ⟨hmem, hnone⟩ := ih v r' out' hrec
          obtain ⟨l0, hl0, hv⟩ := hmem
          exact ⟨⟨l0, List.mem_cons_of_mem line hl0, hx ▸ hv⟩, hx ▸ hnone⟩
      | none =>
        simp only [Except.ok.injEq, Prod.mk.injEq] at h
        obtain ⟨hx, -, -⟩ := h
        exact ⟨⟨line, List.mem_cons_self line rest, hx.symm⟩, hx ▸ hg⟩

/-- A value that passes the `Int` constraint is cast exactly by `int()`.  -/
theorem pyIntCast_exact {x : PyNum}
    (h : CInstance.satisfies .int (.num x) = .ok true) :
    (pyIntCast x : ℚ) = x.toRat := by
  have hmod : pymod x.toRat 1 = 0 := by
    simp only [CInstance.satisfies, intDef] at h
    simpa using of_decide_eq_true (Except.ok.inj h)
  cases x with
  | bool b => cases b <;> simp [pyIntCast, PyNum.toRat, ratOfInt_eq]
  | int n => simp [pyIntCast, PyNum.toRat, ratOfInt_eq]
  | float q =>
    have hden : q.den = 1 := (pymod_one_eq_zero_iff q).mp hmod
    simpa [pyIntCast, PyNum.toRat] using ratTrunc_of_den_eq_one hden

/-- Helper for C3: any tree the evaluator finishes on is built solely
from numeric constants and whitelisted operators. -/
theorem evalAst_ok_arithOnly :
    ∀ (t : Ast) (v : PyNum), evalAst t = .ok v → ArithOnly t
  | .constant (.int n), _, _ => .intConst n
  | .constant (.bool b), _, _ => .boolConst b
  | .constant (.float q), _, _ => .floatConst q
  | .constant (.str s), _, h => by simp [evalAst] at h
  | .constant .noneV, _, h => by simp [evalAst] at h
  | .name _, _, h => by simp [evalAst] at h
  | .call _ _, _, h => by simp [evalAst] at h
  | .compare _ _, _, h => by simp [evalAst] at h
  | .binOp l o r, v, h => by
    rw [evalAst] at h
    cases ho : pyOperators o with
    | none => rw [ho] at h; exact absurd h (by simp)
    | some f =>
      rw [ho] at h
      cases hl : evalAst l with
      | error e => rw [hl] at h; exact absurd h (by simp)
      | ok lv =>
        rw [hl] at h
        cases hr : evalAst r with
        | error e => rw [hr] at h; exact absurd h (by simp)
        | ok rv =>
          exact ArithOnly.binOp (by rw [ho]; rfl)
            (evalAst_ok_arithOnly l lv hl) (evalAst_ok_arithOnly r rv hr)
  | .unaryOp o e, v, h => by
    rw [evalAst] at h
    cases ho : pyOperatorsUnary o with
    | none => rw [ho] at h; exact absurd h (by simp)
    | some f =>
      rw [ho] at h
      cases he : evalAst e with
      | error err => rw [he] at h; exact absurd h (by simp)
      | ok ev =>
        exact ArithOnly.unaryOp (by rw [ho]; rfl) (evalAst_ok_arithOnly e ev he)

/-! ## The claims -/

/-- C1: the claim says a typed expression whose evaluation divides by zero
(for example `1/0`) is treated like unparsable text — sentinel, "Invalid
expression", reprompt, no error to the caller.  The code disagrees:
`__try_to_convert_to_float` handles only `ValueError`, `TypeError` and
`SyntaxError`, so the `ZeroDivisionError` raised while evaluating `1/0`
propagates out of the conversion and out of the prompt loop to the
caller. -/
theorem c1_division_by_zero_propagates :
    evalAst (.binOp (.constant (.int 1)) .div (.constant (.int 0))) =
      .error .zeroDivision ∧
    tryToConvertToFloat "1/0" = .error .zeroDivision ∧
    inputFloat "Number? " [] ["1/0"] = .error .zeroDivision :=
  ⟨rfl, rfl, rfl⟩

/-- C2: the claim says any parsed tree using an operator outside the
whitelist (for example `5 % 3` or `7 // 2`) is rejected as invalid with
the no-value sentinel, no exception reaching the caller.  The code
disagrees: `ast.Mod` and `ast.FloorDiv` are not keys of `__operators`,
subscripting raises `KeyError`, which no handler catches, so it
propagates out of the prompt loop to the caller. -/
theorem c2_unlisted_operator_propagates :
    pyOperators .mod = none ∧
    pyOperators .floorDiv = none ∧
    tryToConvertToFloat "5 % 3" = .error .keyError ∧
    tryToConvertToFloat "7 // 2" = .error .keyError ∧
    inputFloat "Number? " [] ["5 % 3"] = .error .keyError :=
  ⟨rfl, rfl, rfl, rfl, rfl⟩

/-- C3: the evaluator accepts only trees of numeric constants,
whitelisted binary operators and whitelisted unary operators; a name,
call, comparison, string or other non-arithmetic node raises `TypeError`,
which conversion folds into the no-value sentinel reported as "Invalid
expression" — e.g. `import os` fails to parse, is reported as invalid, and
nothing is ever executed. -/
theorem c3_only_arithmetic_accepted :
    (∀ t : Ast, t.nonArithTop = true → evalAst t = .error .typeError) ∧
    (∀ (t : Ast) (v : PyNum), evalAst t = .ok v → ArithOnly t) ∧
    tryToConvertToFloat "import os" = .ok none ∧
    inputFloat "p" [] ["import os", "4"] =
      .ok (.float 4, [], ["Invalid expression"]) := by
  refine ⟨?_, evalAst_ok_arithOnly, rfl, rfl⟩
  intro t h
  cases t with
  | constant c =>
    cases c with
    | str s => rfl
    | noneV => rfl
    | int n => simp [Ast.nonArithTop] at h
    | bool b => simp [Ast.nonArithTop] at h
    | float q => simp [Ast.nonArithTop] at h
  | name s => rfl
  | call f args => rfl
  | compare l r => rfl
  | binOp l o r => simp [Ast.nonArithTop] at h
  | unaryOp o e => simp [Ast.nonArithTop] at h

/-- C3 witness. -/
theorem c3_witness :
    evalAst (.name "os") = .error .typeError ∧
    ArithOnly (.binOp (.constant (.int 6)) .mult (.constant (.int 7))) :=
  ⟨c3_only_arithmetic_accepted.1 (.name "os") rfl,
   c3_only_arithmetic_accepted.2.1 _ (.int 42) rfl⟩

/-- C4: the `Constraint.Min` and `Constraint.Max` attributes in force are
the later, shadowing class definitions: `Min(m).satisfies(v)` holds iff
`v > m` (strict) with message "Input must be greater than {m}", and
`Max(M).satisfies(v)` holds iff `v < M` (strict) with message "Input must
be less than {M}". -/
theorem c4_min_max_shadowed_exclusive :
    classAttr "Min" = some minDefExclusive ∧
    classAttr "Max" = some maxDefExclusive ∧
    ∀ (m : ℚ) (x : PyNum),
      (CInstance.satisfies (.min m) (.num x) = .ok true ↔ x.toRat > m) ∧
      CInstance.errorMessage (.min m) =
        "Input must be greater than " ++ pyNumRepr m ∧
      (CInstance.satisfies (.max m) (.num x) = .ok true ↔ x.toRat < m) ∧
      CInstance.errorMessage (.max m) =
        "Input must be less than " ++ pyNumRepr m := by
  refine ⟨rfl, rfl, fun m x => ⟨?_, rfl, ?_, rfl⟩⟩
  · simp [CInstance.satisfies, minDefExclusive]
  · simp [CInstance.satisfies, maxDefExclusive]

/-- C4 witness. -/
theorem c4_witness :
    CInstance.satisfies (.min 0) (.num (.float 5)) = .ok true ↔
      (PyNum.float 5).toRat > 0 :=
  (c4_min_max_shadowed_exclusive.2.2 0 (.float 5)).1

/-- C5: `input_int` delegates to `input_float` with one `Int` constraint
appended after the caller's list; a convertible but non-integral input
such as `3.5` is therefore rejected with "Input must be an integer" and
the loop restarts; and for the value finally accepted the `int()` cast is
exact. -/
theorem c5_input_int_delegation_and_exact_cast :
    (∀ (p : String) (cs : List CInstance) (stdin : List String)
        (v : PyNum) (r out : List String),
      inputFloat p (cs ++ [CInstance.int]) stdin = .ok (v, r, out) →
        inputInt p cs stdin = .ok (pyIntCast v, r, out) ∧
        (pyIntCast v : ℚ) = v.toRat) ∧
    inputInt "p" [.min (-1)] ["3.5", "4"] =
      .ok (4, [], ["Input must be an integer"]) := by
  refine ⟨fun p cs stdin v r out h => ⟨?_, ?_⟩, rfl⟩
  · simp [inputInt, h]
  · have hnone := inputFloat_accepted p (cs ++ [CInstance.int]) stdin v r out h
    have hint : CInstance.satisfies .int (.num v) = .ok true :=
      (getFirstConstraintError_none_iff _ _).mp hnone CInstance.int (by simp)
    exact pyIntCast_exact hint

/-- C5 witness. -/
theorem c5_witness :
    inputInt "p" [] ["4"] = .ok (pyIntCast (.float 4), [], []) ∧
    (pyIntCast (.float 4) : ℚ) = (PyNum.float 4).toRat :=
  c5_input_int_delegation_and_exact_cast.1 "p" [] ["4"] (.float 4) [] [] rfl

/-- C6: constraint checking walks the list left to right, reports the
first failing constraint's message without evaluating any later
constraint (the short-circuit holds even when a later constraint would
raise), reports no error exactly when every constraint passes, and
acceptance is invariant under reordering of the list. -/
theorem c6_first_failure_wins :
    (∀ (v : PyVal) (cs : List CInstance),
      getFirstConstraintError v cs = .ok none ↔
        ∀ c ∈ cs, c.satisfies v = .ok true) ∧
    (∀ (v : PyVal) (cs1 : List CInstance) (c : CInstance)
        (cs2 : List CInstance),
      (∀ c' ∈ cs1, c'.satisfies v = .ok true) →
      c.satisfies v = .ok false →
      getFirstConstraintError v (cs1 ++ c :: cs2) =
        .ok (some c.errorMessage)) ∧
    (∀ (v : PyVal) (cs cs' : List CInstance), cs.Perm cs' →
      (getFirstConstraintError v cs = .ok none ↔
        getFirstConstraintError v cs' = .ok none)) :=
  ⟨getFirstConstraintError_none_iff,
   getFirstConstraintError_first_fail,
   fun v _ _ h => getFirstConstraintError_none_perm v h⟩

/-- C6 witness: the first failing constraint's message is reported even
though the constraint after it would raise `ZeroDivisionError`. -/
theorem c6_witness :
    getFirstConstraintError (.num (.int 3))
        [CInstance.min 5, CInstance.divisibleBy 0] =
      .ok (some (CInstance.errorMessage (.min 5))) :=
  c6_first_failure_wins.2.1 (.num (.int 3)) [] (.min 5)
    [CInstance.divisibleBy 0] (by simp) rfl

/-- C7 counterexample: the claim says `satisfies` never raises for any
numeric test value whatever parameter was stored, but
`DivisibleBy(0).satisfies(5)` evaluates `5 % 0`, raising
`ZeroDivisionError`. -/
theorem c7_counterexample :
    CInstance.satisfies (.divisibleBy 0) (.num (.int 5)) =
      .error .zeroDivision := rfl

/-- C7 (amended): for every constraint and every value of its expected
type, `satisfies` returns a boolean and does not raise, provided the
stored divisor of the divisibility variants is nonzero. -/
theorem c7_satisfies_total_amended :
    ∀ (c : CInstance) (v : PyVal), expectedType c v → divisorOk c →
      ∃ b : Bool, c.satisfies v = .ok b := by
  intro c v hty hdiv
  cases v with
  | num x =>
    cases c with
    | min m => exact ⟨_, rfl⟩
    | max m => exact ⟨_, rfl⟩
    | divisibleBy q =>
      refine ⟨decide (pymod x.toRat q = 0), ?_⟩
      show (if q = 0 then Except.error PyErr.zeroDivision
            else Except.ok (decide (pymod x.toRat q = 0))) = _
      rw [if_neg hdiv]
    | notDivisibleBy q =>
      refine ⟨decide (¬ pymod x.toRat q = 0), ?_⟩
      show (if q = 0 then Except.error PyErr.zeroDivision
            else Except.ok (decide (¬ pymod x.toRat q = 0))) = _
      rw [if_neg hdiv]
    | minLen n => simp [expectedType, CInstance.expectsNum] at hty
    | maxLen n => simp [expectedType, CInstance.expectsNum] at hty
    | int => exact ⟨_, rfl⟩
  | str s =>
    cases c with
    | min m => simp [expectedType, CInstance.expectsNum] at hty
    | max m => simp [expectedType, CInstance.expectsNum] at hty
    | divisibleBy q => simp [expectedType, CInstance.expectsNum] at hty
    | notDivisibleBy q => simp [expectedType, CInstance.expectsNum] at hty
    | minLen n => exact ⟨_, rfl⟩
    | maxLen n => exact ⟨_, rfl⟩
    | int => simp [expectedType, CInstance.expectsNum] at hty

/-- C7 witness. -/
theorem c7_witness :
    ∃ b : Bool, CInstance.satisfies (.min 0) (.num (.int 5)) = .ok b :=
  c7_satisfies_total_amended (.min 0) (.num (.int 5)) rfl trivial

/-- C8: `input_string` strips each line, checks the constraints against
the stripped string (so `" a "` has length 1 against `MinLen`), reprompts
with the first failing constraint's message, and returns a stripped
string on which every constraint passed. -/
theorem c8_input_string_strips_and_validates :
    inputString "p" [.minLen 2, .maxLen 5] [" a ", "hello"] =
      .ok ("hello", [], ["Input must have at least 2 characters"]) ∧
    CInstance.satisfies (.minLen 2) (.str (pyStrip " a ")) = .ok false ∧
    (∀ (p : String) (cs : List CInstance) (stdin : List String)
        (s : String) (r out : List String),
      inputString p cs stdin = .ok (s, r, out) →
        (∃ line ∈ stdin, s = pyStrip line) ∧
        getFirstConstraintError (.str s) cs = .ok none) :=
  ⟨rfl, rfl, inputString_accepted⟩

/-- C8 witness. -/
theorem c8_witness :
    (∃ line ∈ ["hi"], "hi" = pyStrip line) ∧
    getFirstConstraintError (.str "hi") [] = .ok none :=
  c8_input_string_strips_and_validates.2.2 "p" [] ["hi"] "hi" [] [] rfl

/-- C9: constraint checking is deterministic (a pure function of the value
and the list), and an already-accepted value re-validates cleanly: a value
returned by `input_float` or `input_string` passes the same constraint
list again with no error reported. -/
theorem c9_revalidation_never_fails :
    (∀ (v : PyVal) (cs : List CInstance)
        (r1 r2 : Except PyErr (Option String)),
      getFirstConstraintError v cs = r1 → getFirstConstraintError v cs = r2 →
        r1 = r2) ∧
    (∀ (p : String) (cs : List CInstance) (stdin : List String)
        (x : PyNum) (r out : List String),
      inputFloat p cs stdin = .ok (x, r, out) →
        getFirstConstraintError (.num x) cs = .ok none) ∧
    (∀ (p : String) (cs : List CInstance) (stdin : List String)
        (s : String) (r out : List String),
      inputString p cs stdin = .ok (s, r, out) →
        getFirstConstraintError (.str s) cs = .ok none) :=
  ⟨fun _ _ _ _ h1 h2 => h1 ▸ h2,
   inputFloat_accepted,
   fun p cs stdin s r out h => (inputString_accepted p cs stdin s r out h).2⟩

/-- C9 witness. -/
theorem c9_witness :
    getFirstConstraintError (.num (.float 5)) [CInstance.min 0] = .ok none :=
  c9_revalidation_never_fails.2.1 "p" [CInstance.min 0] ["5"] (.float 5) [] [] rfl

/-- C10: the boolean literals are accepted by numeric conversion — the
constant guard `isinstance(value, (int, float))` admits `bool` as a
subclass of `int` — so `input_float` returns `True`/`False` themselves
and `input_int` returns `1`/`0` for these inputs. -/
theorem c10_bool_literals_accepted :
    evalAst (.constant (.bool true)) = .ok (.bool true) ∧
    pyFloatParse "True" = none ∧
    tryToConvertToFloat "True" = .ok (some (.bool true)) ∧
    tryToConvertToFloat "False" = .ok (some (.bool false)) ∧
    inputFloat "p" [] ["True"] = .ok (.bool true, [], []) ∧
    inputInt "p" [] ["True"] = .ok (1, [], []) ∧
    inputInt "p" [] ["False"] = .ok (0, [], []) :=
  ⟨rfl, rfl, rfl, rfl, rfl, rfl, rfl⟩

end InputPlus
